import Mathlib

/-!
Shallow embedding of the azqr rule-evaluation engine (Go sources under
`src/`): the AKS analyzer (`cmd/azqr/analyzers/aks_analyzer.go`), the
Event Hub, App Service and Container Apps rule tables
(`internal/scanners/{evh,plan,cae}/rules.go`) and the SignalR rule table.

Modelling conventions:
  * Go pointer-typed fields become `Option`; dereferencing a `nil`
    pointer is a panic, modelled as the `none` / `.panic` outcome.
  * Go slices of pointers become plain `List`s (the SDK never yields
    nil elements); a slice that the source compares against `nil`
    (e.g. `AvailabilityZones`) is kept as `Option (List _)`.
  * Go maps become association lists; `string` stays `String`.
  * The fallible diagnostics capability `HasDiagnostics` is a function
    `String → Except String Bool` passed in explicitly.
  * `log.Fatalf` (process termination) and panics inside a rule's Eval
    are both modelled as the `none` outcome: no `(broken, value)` pair
    is produced.
  * Rule `Eval` functions return the (possibly mutated) target and scan
    context explicitly, so that non-mutation is a provable statement.
-/

namespace Azqr

/-- `strings.Contains`: `pat` occurs as a contiguous substring. -/
def charsContain (pat : List Char) : List Char → Bool
  | [] => pat.isEmpty
  | c :: rest => (pat == (c :: rest).take pat.length) || charsContain pat rest

/-- `strings.Contains` on `String`s. -/
def strContains (s pat : String) : Bool := charsContain pat.toList s.toList

/-- `strings.HasPrefix`. -/
def strStartsWith (s pre : String) : Bool := pre.toList.isPrefixOf s.toList

/-- Shared scan context (`scanners.ScanContext`): the set of resource IDs
that have a private endpoint. -/
structure ScanContext where
  privateEndpoints : List String
  deriving Repr, DecidableEq

/-- The diagnostics-settings capability: `HasDiagnostics(id) -> (bool, error)`. -/
def DiagFn := String → Except String Bool

/-! ## AKS managed clusters (`aks_analyzer.go`) -/

/-- `armcontainerservice.ManagedClusterAgentPoolProfile` (the fields the
analyzer reads). `AvailabilityZones` is a nilable slice. -/
structure ManagedClusterAgentPoolProfile where
  availabilityZones : Option (List String)
  deriving Repr, DecidableEq

/-- `armcontainerservice.ManagedClusterSKU`. -/
structure ManagedClusterSKU where
  tier : Option String
  deriving Repr, DecidableEq

/-- `armcontainerservice.ManagedClusterAPIServerAccessProfile`. -/
structure ManagedClusterAPIServerAccessProfile where
  enablePrivateCluster : Option Bool
  deriving Repr, DecidableEq

/-- `armcontainerservice.ManagedClusterAddonProfile`. -/
structure ManagedClusterAddonProfile where
  enabled : Option Bool
  deriving Repr, DecidableEq

/-- `armcontainerservice.ManagedClusterProperties` (fields read by the
analyzer and by the addon rules). The addon-profile map is an
association list. -/
structure ManagedClusterProperties where
  agentPoolProfiles : List ManagedClusterAgentPoolProfile
  apiServerAccessProfile : Option ManagedClusterAPIServerAccessProfile
  addonProfiles : List (String × ManagedClusterAddonProfile)
  deriving Repr, DecidableEq

/-- `armcontainerservice.ManagedCluster`. -/
structure ManagedCluster where
  id : Option String
  name : Option String
  type : Option String
  sku : Option ManagedClusterSKU
  properties : Option ManagedClusterProperties
  deriving Repr, DecidableEq

/-- The output row (`AzureServiceResult`). -/
structure AzureServiceResult where
  subscriptionId : String
  resourceGroup : String
  serviceName : String
  sku : String
  sla : String
  type : String
  availabilityZones : Bool
  privateEndpoints : Bool
  diagnosticSettings : Bool
  cafNaming : Bool
  deriving Repr, DecidableEq

/-- Outcome of running a piece of the analyzer: a nil-pointer panic, a
returned error, or a normal result. -/
inductive RunResult (α : Type) where
  | panic : RunResult α
  | fatal : String → RunResult α
  | ok : α → RunResult α
  deriving Repr, DecidableEq

/-- `AKSAnalyzer.listClusters`: drain the pager, propagating the first
page error (`return nil, err`). Each page is either an error or a list
of clusters. -/
def listClusters : List (Except String (List ManagedCluster)) →
    Except String (List ManagedCluster)
  | [] => .ok []
  | page :: rest =>
    match page with
    | .error e => .error e
    | .ok cs =>
      match listClusters rest with
      | .error e => .error e
      | .ok more => .ok (cs ++ more)

/-- The body of `AKSAnalyzer.Review`'s per-cluster loop (lines 44-77):
diagnostics lookup, the zone-redundancy fold, the SLA computation and
the row construction, with every `*ptr` dereference a panic point. -/
def reviewCluster (diag : DiagFn) (subscriptionId resourceGroupName : String)
    (c : ManagedCluster) : RunResult AzureServiceResult :=
  match c.id with
  | none => .panic
  | some cid =>
    match diag cid with
    | .error e => .fatal e
    | .ok hasDiagnostics =>
      match c.properties with
      | none => .panic
      | some props =>
        let zones := props.agentPoolProfiles.foldl
          (fun zones profile =>
            match profile.availabilityZones with
            | none => false
            | some az => if az.length ≤ 1 then false else zones) true
        match c.sku with
        | none => .panic
        | some sku0 =>
          match sku0.tier with
          | none => .panic
          | some sku =>
            let sla := if sku = "Paid" then
                (if zones then "99.95%" else "99.9%")
              else "None"
            match c.name with
            | none => .panic
            | some name =>
              match c.type with
              | none => .panic
              | some ty =>
                match props.apiServerAccessProfile with
                | none => .panic
                | some ap =>
                  match ap.enablePrivateCluster with
                  | none => .panic
                  | some pe =>
                    .ok { subscriptionId := subscriptionId
                          resourceGroup := resourceGroupName
                          serviceName := name
                          sku := sku
                          sla := sla
                          type := ty
                          availabilityZones := zones
                          privateEndpoints := pe
                          diagnosticSettings := hasDiagnostics
                          cafNaming := strStartsWith name "aks" }

/-- The loop of `AKSAnalyzer.Review` over the fetched clusters: the first
error (`return nil, err`) or panic aborts with no rows. -/
def reviewClusters (diag : DiagFn) (subscriptionId resourceGroupName : String) :
    List ManagedCluster → RunResult (List AzureServiceResult)
  | [] => .ok []
  | c :: rest =>
    match reviewCluster diag subscriptionId resourceGroupName c with
    | .panic => .panic
    | .fatal e => .fatal e
    | .ok row =>
      match reviewClusters diag subscriptionId resourceGroupName rest with
      | .panic => .panic
      | .fatal e => .fatal e
      | .ok rows => .ok (row :: rows)

/-- `AKSAnalyzer.Review`: list the clusters (aborting on a paging error
with no rows), then evaluate each cluster. -/
def review (diag : DiagFn) (subscriptionId resourceGroupName : String)
    (pages : List (Except String (List ManagedCluster))) :
    RunResult (List AzureServiceResult) :=
  match listClusters pages with
  | .error e => .fatal e
  | .ok clusters => reviewClusters diag subscriptionId resourceGroupName clusters

/-- Zone redundancy as the spec phrases it: every agent pool profile has
an availability-zone list with at least 2 entries. -/
def poolsZoneRedundant (pools : List ManagedClusterAgentPoolProfile) : Bool :=
  pools.all fun p =>
    match p.availabilityZones with
    | none => false
    | some az => 2 ≤ az.length

/-! ## App Service plans / sites (`internal/scanners/plan/rules.go`) -/

/-- `armappservice.SKUDescription` (`Name` and `Tier` fields). -/
structure PlanSKU where
  name : Option String
  tier : Option String
  deriving Repr, DecidableEq

/-- `armappservice.PlanProperties` (the fields the rules read). -/
structure PlanProperties where
  zoneRedundant : Option Bool
  deriving Repr, DecidableEq

/-- `armappservice.Plan`. -/
structure Plan where
  id : Option String
  name : Option String
  sku : Option PlanSKU
  properties : Option PlanProperties
  tags : Option (List (String × String))
  deriving Repr, DecidableEq

/-- `armappservice.SiteProperties` (the fields the rules read). -/
structure SiteProperties where
  httpsOnly : Option Bool
  deriving Repr, DecidableEq

/-- `armappservice.Site`. -/
structure Site where
  id : Option String
  name : Option String
  properties : Option SiteProperties
  tags : Option (List (String × String))
  deriving Repr, DecidableEq

/-- An `Eval` outcome: `none` when the call does not return (nil-pointer
panic or `log.Fatalf`), otherwise the `(broken, value)` pair together
with the target and scan context as left behind by the call. -/
abbrev EvalOut (α : Type) := Option ((Bool × String) × α × ScanContext)

/-- Rule `plan-002` (`AvailabilityZones`): `zones := *i.Properties.ZoneRedundant;
return !zones, ""`. -/
def plan002Eval (p : Plan) (ctx : ScanContext) : EvalOut Plan :=
  match p.properties with
  | none => none
  | some props =>
    match props.zoneRedundant with
    | none => none
    | some zones => some (((!zones), ""), p, ctx)

/-- Rule `plan-003` (`SLA`): `sla := "None"; if sku != "Free" && sku != "Shared"
{ sla = "99.95%" }; return sla == "None", sla`. -/
def plan003Eval (p : Plan) (ctx : ScanContext) : EvalOut Plan :=
  match p.sku with
  | none => none
  | some sku0 =>
    match sku0.tier with
    | none => none
    | some sku =>
      let sla := if sku ≠ "Free" ∧ sku ≠ "Shared" then "99.95%" else "None"
      some (((sla == "None"), sla), p, ctx)

/-- Rule `app-007` (HTTPS only): `h := *c.Properties.HTTPSOnly; return !h, ""`
— the flag pointer is dereferenced without a nil check. -/
def app007Eval (s : Site) (ctx : ScanContext) : EvalOut Site :=
  match s.properties with
  | none => none
  | some props =>
    match props.httpsOnly with
    | none => none
    | some h => some (((!h), ""), s, ctx)

/-- Rule `func-007` (HTTPS only): `h := c.Properties.HTTPSOnly != nil &&
*c.Properties.HTTPSOnly; return !h, ""` — absent flag treated as false. -/
def func007Eval (s : Site) (ctx : ScanContext) : EvalOut Site :=
  match s.properties with
  | none => none
  | some props =>
    let h := match props.httpsOnly with
      | none => false
      | some b => b
    some (((!h), ""), s, ctx)

/-! ## Event Hub namespaces (`internal/scanners/evh/rules.go`) -/

/-- `armeventhub.SKU` (`Name` field). -/
structure EHSKU where
  name : Option String
  deriving Repr, DecidableEq

/-- `armeventhub.EHNamespaceProperties` (the fields the rules read).
Private endpoint connections are kept as a list (only its length is
used). -/
structure EHNamespaceProperties where
  zoneRedundant : Option Bool
  privateEndpointConnections : List Unit
  disableLocalAuth : Option Bool
  deriving Repr, DecidableEq

/-- `armeventhub.EHNamespace`. -/
structure EHNamespace where
  id : Option String
  name : Option String
  sku : Option EHSKU
  properties : Option EHNamespaceProperties
  tags : Option (List (String × String))
  deriving Repr, DecidableEq

/-- Rule `evh-001` (`DiagnosticSettings`): look up diagnostics for
`*service.ID`; on error `log.Fatalf` terminates the process (`none`). -/
def evh001Eval (diag : DiagFn) (c : EHNamespace) (ctx : ScanContext) :
    EvalOut EHNamespace :=
  match c.id with
  | none => none
  | some cid =>
    match diag cid with
    | .error _ => none
    | .ok hasDiagnostics => some (((!hasDiagnostics), ""), c, ctx)

/-- Rule `evh-002` (`AvailabilityZones`): `zones := *i.Properties.ZoneRedundant;
return !zones, ""`. -/
def evh002Eval (c : EHNamespace) (ctx : ScanContext) : EvalOut EHNamespace :=
  match c.properties with
  | none => none
  | some props =>
    match props.zoneRedundant with
    | none => none
    | some zones => some (((!zones), ""), c, ctx)

/-- Rule `evh-003` (`SLA`): `sla := "99.95%"; if !strings.Contains(sku, "Basic")
&& !strings.Contains(sku, "Standard") { sla = "99.99%" }; return false, sla`. -/
def evh003Eval (c : EHNamespace) (ctx : ScanContext) : EvalOut EHNamespace :=
  match c.sku with
  | none => none
  | some sku0 =>
    match sku0.name with
    | none => none
    | some sku =>
      let sla := if !(strContains sku "Basic") && !(strContains sku "Standard")
        then "99.99%" else "99.95%"
      some ((false, sla), c, ctx)

/-- Rule `evh-004` (`Private`): `pe := len(i.Properties.PrivateEndpointConnections) > 0;
return !pe, ""`. -/
def evh004Eval (c : EHNamespace) (ctx : ScanContext) : EvalOut EHNamespace :=
  match c.properties with
  | none => none
  | some props =>
    let pe := decide (0 < props.privateEndpointConnections.length)
    some (((!pe), ""), c, ctx)

/-- Rule `evh-005` (`SKU`): `return false, string(*i.SKU.Name)`. -/
def evh005Eval (c : EHNamespace) (ctx : ScanContext) : EvalOut EHNamespace :=
  match c.sku with
  | none => none
  | some sku0 =>
    match sku0.name with
    | none => none
    | some sku => some ((false, sku), c, ctx)

/-- Rule `evh-006` (`CAF`): `caf := strings.HasPrefix(*c.Name, "evh");
return !caf, ""`. -/
def evh006Eval (c : EHNamespace) (ctx : ScanContext) : EvalOut EHNamespace :=
  match c.name with
  | none => none
  | some name => some (((!(strStartsWith name "evh")), ""), c, ctx)

/-- Rule `evh-007` (tags): `return c.Tags == nil || len(c.Tags) == 0, ""`. -/
def evh007Eval (c : EHNamespace) (ctx : ScanContext) : EvalOut EHNamespace :=
  let broken := match c.tags with
    | none => true
    | some tags => tags.isEmpty
  some ((broken, ""), c, ctx)

/-- Rule `evh-008` (local authentication): `return
c.Properties.DisableLocalAuth != nil && !*c.Properties.DisableLocalAuth, ""`. -/
def evh008Eval (c : EHNamespace) (ctx : ScanContext) : EvalOut EHNamespace :=
  match c.properties with
  | none => none
  | some props =>
    let broken := match props.disableLocalAuth with
      | none => false
      | some b => !b
    some ((broken, ""), c, ctx)

/-! ## Container App environments (`internal/scanners/cae/rules.go`) -/

/-- `armappcontainers.VnetConfiguration` (`Internal` field). -/
structure VnetConfiguration where
  internal : Option Bool
  deriving Repr, DecidableEq

/-- `armappcontainers.ManagedEnvironmentProperties` (the fields the rules
read). -/
structure ManagedEnvironmentProperties where
  zoneRedundant : Option Bool
  vnetConfiguration : Option VnetConfiguration
  deriving Repr, DecidableEq

/-- `armappcontainers.ManagedEnvironment`. -/
structure ManagedEnvironment where
  id : Option String
  name : Option String
  properties : Option ManagedEnvironmentProperties
  tags : Option (List (String × String))
  deriving Repr, DecidableEq

/-- Rule `cae-001` (`DiagnosticSettings`): like `evh-001`, with
`log.Fatalf` on a lookup error. -/
def cae001Eval (diag : DiagFn) (c : ManagedEnvironment) (ctx : ScanContext) :
    EvalOut ManagedEnvironment :=
  match c.id with
  | none => none
  | some cid =>
    match diag cid with
    | .error _ => none
    | .ok hasDiagnostics => some (((!hasDiagnostics), ""), c, ctx)

/-- Rule `cae-002` (`AvailabilityZones`): `zones := *app.Properties.ZoneRedundant;
return !zones, ""`. -/
def cae002Eval (c : ManagedEnvironment) (ctx : ScanContext) :
    EvalOut ManagedEnvironment :=
  match c.properties with
  | none => none
  | some props =>
    match props.zoneRedundant with
    | none => none
    | some zones => some (((!zones), ""), c, ctx)

/-- Rule `cae-003` (`SLA`): `return false, "99.95%"` unconditionally. -/
def cae003Eval (c : ManagedEnvironment) (ctx : ScanContext) :
    EvalOut ManagedEnvironment :=
  some ((false, "99.95%"), c, ctx)

/-- Rule `cae-004` (`Private`): `pe := app.Properties.VnetConfiguration != nil
&& *app.Properties.VnetConfiguration.Internal; return !pe, ""`. -/
def cae004Eval (c : ManagedEnvironment) (ctx : ScanContext) :
    EvalOut ManagedEnvironment :=
  match c.properties with
  | none => none
  | some props =>
    match props.vnetConfiguration with
    | none => some (((!false), ""), c, ctx)
    | some vnet =>
      match vnet.internal with
      | none => none
      | some b => some (((!b), ""), c, ctx)

/-- Rule `cae-006` (`CAF`): `caf := strings.HasPrefix(*c.Name, "cae");
return !caf, ""`. -/
def cae006Eval (c : ManagedEnvironment) (ctx : ScanContext) :
    EvalOut ManagedEnvironment :=
  match c.name with
  | none => none
  | some name => some (((!(strStartsWith name "cae")), ""), c, ctx)

/-- Rule `cae-007` (tags): `return c.Tags == nil || len(c.Tags) == 0, ""`. -/
def cae007Eval (c : ManagedEnvironment) (ctx : ScanContext) :
    EvalOut ManagedEnvironment :=
  let broken := match c.tags with
    | none => true
    | some tags => tags.isEmpty
  some ((broken, ""), c, ctx)

/-! ## SignalR (`sigr/rules.go`, `src/unnamed/part_001`) -/

/-- `armsignalr.ResourceInfo` (the fields `sigr-003` could touch; its
Eval ignores the target entirely). -/
structure SignalRResourceInfo where
  id : Option String
  name : Option String
  deriving Repr, DecidableEq

/-- Rule `sigr-003` (`SLA`): `return false, "99.9%"` unconditionally. -/
def sigr003Eval (c : SignalRResourceInfo) (ctx : ScanContext) :
    EvalOut SignalRResourceInfo :=
  some ((false, "99.9%"), c, ctx)

/-! ## Rule records (`scanners.AzureRule`) and the registered rule sets -/

/-- `scanners.AzureRule`, generic over the target type the scanner's
`GetRules` closure asserts. -/
structure AzureRule (α : Type) where
  id : String
  category : String
  subcategory : String
  description : String
  severity : String
  url : String
  eval : α → ScanContext → EvalOut α

/-- `EventHubScanner.GetRules` (the map's values, in source order),
closed over the diagnostics capability. -/
def evhRules (diag : DiagFn) : List (AzureRule EHNamespace) :=
  [ { id := "evh-001", category := "Monitoring and Logging",
      subcategory := "Diagnostic Logs",
      description := "Event Hub Namespace should have diagnostic settings enabled",
      severity := "Medium", url := "", eval := evh001Eval diag },
    { id := "evh-002", category := "High Availability and Resiliency",
      subcategory := "Availability Zones",
      description := "Event Hub Namespace should have availability zones enabled",
      severity := "High", url := "", eval := evh002Eval },
    { id := "evh-003", category := "High Availability and Resiliency",
      subcategory := "SLA",
      description := "Event Hub Namespace should have a SLA",
      severity := "High", url := "", eval := evh003Eval },
    { id := "evh-004", category := "Security", subcategory := "Networking",
      description := "Event Hub Namespace should have private endpoints enabled",
      severity := "High", url := "", eval := evh004Eval },
    { id := "evh-005", category := "High Availability and Resiliency",
      subcategory := "SKU",
      description := "Event Hub Namespace SKU",
      severity := "High", url := "", eval := evh005Eval },
    { id := "evh-006", category := "Governance",
      subcategory := "Naming Convention (CAF)",
      description := "Event Hub Namespace Name should comply with naming conventions",
      severity := "Low", url := "", eval := evh006Eval },
    { id := "evh-007", category := "Governance",
      subcategory := "Use tags to organize your resources",
      description := "Event Hub should have tags",
      severity := "Low", url := "", eval := evh007Eval },
    { id := "evh-008", category := "Security",
      subcategory := "Identity and Access Control",
      description := "Event Hub should have local authentication disabled",
      severity := "Medium", url := "", eval := evh008Eval } ]

/-- `ContainerAppsScanner.GetRules` (the map's values, in source order),
closed over the diagnostics capability. -/
def caeRules (diag : DiagFn) : List (AzureRule ManagedEnvironment) :=
  [ { id := "cae-001", category := "Monitoring and Logging",
      subcategory := "Diagnostic Logs",
      description := "ContainerApp should have diagnostic settings enabled",
      severity := "Medium", url := "", eval := cae001Eval diag },
    { id := "cae-002", category := "High Availability and Resiliency",
      subcategory := "Availability Zones",
      description := "ContainerApp should have availability zones enabled",
      severity := "High", url := "", eval := cae002Eval },
    { id := "cae-003", category := "High Availability and Resiliency",
      subcategory := "SLA",
      description := "ContainerApp should have a SLA",
      severity := "High", url := "", eval := cae003Eval },
    { id := "cae-004", category := "Security", subcategory := "Networking",
      description := "ContainerApp should have private endpoints enabled",
      severity := "High", url := "", eval := cae004Eval },
    { id := "cae-006", category := "Governance",
      subcategory := "Naming Convention (CAF)",
      description := "ContainerApp Name should comply with naming conventions",
      severity := "Low", url := "", eval := cae006Eval },
    { id := "cae-007", category := "Governance",
      subcategory := "Use tags to organize your resources",
      description := "ContainerApp should have tags",
      severity := "Low", url := "", eval := cae007Eval } ]

/-! ## AKS addon-profile rules `aks-010` / `aks-011` -/

/-- Go map lookup in the addon-profile map (case-sensitive key). -/
def lookupAddon (addons : List (String × ManagedClusterAddonProfile))
    (key : String) : Option ManagedClusterAddonProfile :=
  match addons.find? (fun kv => kv.1 == key) with
  | none => none
  | some kv => some kv.2

/-- Modelled from the spec: the AKS scanner rule table
(`internal/scanners/aks/rules.go`) is not under `src/`; only its test
(`src/unnamed/part_000`) is. Rule `aks-010` (HTTP application routing
should be disabled) per the spec's addon-profile table: look up the
case-sensitive key `httpApplicationRouting`; absent key is compliant
(broken = false); a present addon is broken exactly when enabled. -/
def aks010Eval (c : ManagedCluster) (ctx : ScanContext) : EvalOut ManagedCluster :=
  match c.properties with
  | none => none
  | some props =>
    let broken := match lookupAddon props.addonProfiles "httpApplicationRouting" with
      | none => false
      | some addon => addon.enabled == some true
    some ((broken, ""), c, ctx)

/-- Modelled from the spec: the AKS scanner rule table
(`internal/scanners/aks/rules.go`) is not under `src/`; only its test
(`src/unnamed/part_000`) is. Rule `aks-011` (the `omsagent` monitoring
addon should be enabled) per the spec's addon-profile table: look up the
case-sensitive key `omsagent`; absent key is non-compliant
(broken = true); a present addon is broken exactly when not enabled. -/
def aks011Eval (c : ManagedCluster) (ctx : ScanContext) : EvalOut ManagedCluster :=
  match c.properties with
  | none => none
  | some props =>
    let broken := match lookupAddon props.addonProfiles "omsagent" with
      | none => true
      | some addon => !(addon.enabled == some true)
    some ((broken, ""), c, ctx)

/-! ## Concrete fixtures used by witnesses and counterexamples -/

/-- A diagnostics capability that always succeeds with `true`. -/
def diagAlwaysTrue : DiagFn := fun _ => .ok true

/-- A diagnostics capability that always fails. -/
def diagAlwaysFails : DiagFn := fun _ => .error "diagnostics lookup failed"

/-- An empty scan context. -/
def ctx0 : ScanContext := { privateEndpoints := [] }

/-- Properties with an empty agent-pool-profile list. -/
def emptyPoolsProps : ManagedClusterProperties :=
  { agentPoolProfiles := [],
    apiServerAccessProfile := some { enablePrivateCluster := some false },
    addonProfiles := [] }

/-- A paid-tier AKS cluster whose agent-pool-profile list is empty. -/
def emptyPoolsCluster : ManagedCluster :=
  { id := some "id1", name := some "aks-empty",
    type := some "Microsoft.ContainerService/managedClusters",
    sku := some { tier := some "Paid" },
    properties := some emptyPoolsProps }

/-- Properties with one 3-zone agent pool. -/
def zonedProps : ManagedClusterProperties :=
  { agentPoolProfiles := [ { availabilityZones := some ["1", "2", "3"] } ],
    apiServerAccessProfile := some { enablePrivateCluster := some true },
    addonProfiles := [] }

/-- A paid-tier AKS cluster with one 3-zone agent pool. -/
def zonedCluster : ManagedCluster :=
  { id := some "id2", name := some "aks-demo",
    type := some "Microsoft.ContainerService/managedClusters",
    sku := some { tier := some "Paid" },
    properties := some zonedProps }

/-- The row `AKSAnalyzer.Review` produces for `zonedCluster`. -/
def zonedRow : AzureServiceResult :=
  { subscriptionId := "sub", resourceGroup := "rg", serviceName := "aks-demo",
    sku := "Paid", sla := "99.95%",
    type := "Microsoft.ContainerService/managedClusters",
    availabilityZones := true, privateEndpoints := true,
    diagnosticSettings := true, cafNaming := true }

/-- Project the `AvailabilityZones` field out of a successful run. -/
def rowZones : RunResult AzureServiceResult → Option Bool
  | .ok r => some r.availabilityZones
  | _ => none

/-- Project the `Sla` field out of a successful run. -/
def rowSla : RunResult AzureServiceResult → Option String
  | .ok r => some r.sla
  | _ => none

/-! ## Helper lemmas -/

/-- The zone fold of `AKSAnalyzer.Review` (lines 50-55) computes the
conjunction of its seed with `poolsZoneRedundant`. -/
theorem zonesFoldl_eq (b : Bool) (pools : List ManagedClusterAgentPoolProfile) :
    pools.foldl
      (fun zones profile =>
        match profile.availabilityZones with
        | none => false
        | some az => if az.length ≤ 1 then false else zones) b
      = (b && poolsZoneRedundant pools) := by
  induction pools generalizing b with
  | nil => simp [poolsZoneRedundant]
  | cons p rest ih =>
    rw [List.foldl_cons, ih]
    cases haz : p.availabilityZones with
    | none => simp [poolsZoneRedundant, haz]
    | some az =>
      by_cases hlen : az.length ≤ 1
      · have h2 : ¬ (2 ≤ az.length) := by omega
        simp [poolsZoneRedundant, haz, hlen, h2]
      · have h2 : 2 ≤ az.length := by omega
        simp [poolsZoneRedundant, haz, hlen, h2, Bool.and_comm, Bool.and_assoc,
          Bool.and_left_comm]

/-- The zone fold again, with the branch condition in the normal form
`simp` produces for the `if` inside the loop body. -/
theorem zonesFoldl_eq' (b : Bool) (pools : List ManagedClusterAgentPoolProfile) :
    pools.foldl
      (fun zones profile =>
        match profile.availabilityZones with
        | none => false
        | some az => !decide (az.length ≤ 1) && zones) b
      = (b && poolsZoneRedundant pools) := by
  have hfun : (fun (zones : Bool) (profile : ManagedClusterAgentPoolProfile) =>
      match profile.availabilityZones with
      | none => false
      | some az => !decide (az.length ≤ 1) && zones)
      = (fun zones profile =>
      match profile.availabilityZones with
      | none => false
      | some az => if az.length ≤ 1 then false else zones) := by
    funext z p
    cases p.availabilityZones with
    | none => rfl
    | some az => by_cases hlen : az.length ≤ 1 <;> simp [hlen]
  rw [hfun, zonesFoldl_eq]

/-- A profile passes the zone check iff it has at least two zones. -/
theorem poolGood_iff (p : ManagedClusterAgentPoolProfile) :
    ((match p.availabilityZones with
      | none => false
      | some az => decide (2 ≤ az.length)) = true)
      ↔ ∃ az, p.availabilityZones = some az ∧ 2 ≤ az.length := by
  cases haz : p.availabilityZones <;> simp [haz]

/-- C1: for every AKS managed cluster processed by `AKSAnalyzer.Review`:
the row's `Sku` is the SKU tier; if the tier is "Paid" and every agent
pool has at least 2 availability zones, the row's `Sla` is "99.95%"; if
the tier is "Paid" and zone redundancy does not hold, `Sla` is "99.9%";
for any other tier, `Sla` is "None" regardless of zones. -/
theorem aks_review_sla (diag : DiagFn) (subId rg : String) (c : ManagedCluster)
    (sku0 : ManagedClusterSKU) (tier : String) (props : ManagedClusterProperties)
    (row : AzureServiceResult)
    (hs : c.sku = some sku0) (ht : sku0.tier = some tier)
    (hp : c.properties = some props)
    (h : reviewCluster diag subId rg c = .ok row) :
    row.sku = tier
    ∧ (tier = "Paid" →
        row.sla =
          if poolsZoneRedundant props.agentPoolProfiles then "99.95%" else "99.9%")
    ∧ (tier ≠ "Paid" → row.sla = "None") := by
  unfold reviewCluster at h
  simp only [hp, hs, ht] at h
  repeat' split at h
  all_goals first
    | exact RunResult.noConfusion h
    | (injection h with h; subst h; refine ⟨rfl, fun hpaid => ?_, fun hother => ?_⟩)
  all_goals simp_all [zonesFoldl_eq, zonesFoldl_eq']

/-- Witness for C1: a concrete paid-tier 3-zone cluster reviewed with a
succeeding diagnostics capability. -/
theorem aks_review_sla_witness :
    zonedRow.sku = "Paid"
    ∧ ("Paid" = "Paid" →
        zonedRow.sla =
          if poolsZoneRedundant zonedProps.agentPoolProfiles then "99.95%" else "99.9%")
    ∧ ("Paid" ≠ "Paid" → zonedRow.sla = "None") :=
  aks_review_sla diagAlwaysTrue "sub" "rg" zonedCluster { tier := some "Paid" }
    "Paid" zonedProps zonedRow rfl rfl rfl (by decide)

/-- Counterexample for C3: the claim says an empty agent-pool-profile
list yields `AvailabilityZones = false`, but `Review` leaves the zone
flag at its `true` seed when the loop body never runs. -/
theorem aks_zones_empty_pools_counterexample :
    rowZones (reviewCluster diagAlwaysTrue "sub" "rg" emptyPoolsCluster) = some true
    ∧ rowSla (reviewCluster diagAlwaysTrue "sub" "rg" emptyPoolsCluster) = some "99.95%" := by
  decide

/-- C3 as amended: the `AvailabilityZones` result of `AKSAnalyzer.Review`
is true iff every agent pool profile has an availability-zone list with
at least 2 entries — vacuously true for an empty profile list; an absent
zone list on any profile or any profile with at most 1 zone yields
false. -/
theorem aks_review_availability_zones (diag : DiagFn) (subId rg : String)
    (c : ManagedCluster) (props : ManagedClusterProperties)
    (row : AzureServiceResult)
    (hp : c.properties = some props)
    (h : reviewCluster diag subId rg c = .ok row) :
    row.availabilityZones = true
      ↔ ∀ p ∈ props.agentPoolProfiles,
          ∃ az, p.availabilityZones = some az ∧ 2 ≤ az.length := by
  unfold reviewCluster at h
  simp only [hp] at h
  repeat' split at h
  all_goals first
    | exact RunResult.noConfusion h
    | (injection h with h; subst h)
  all_goals
    simp only [zonesFoldl_eq, zonesFoldl_eq', Bool.true_and, poolsZoneRedundant,
      List.all_eq_true]
  all_goals exact forall_congr' fun p => forall_congr' fun _ => poolGood_iff p

/-- Witness for C3 (amended): the 3-zone cluster. -/
theorem aks_review_availability_zones_witness :
    zonedRow.availabilityZones = true
      ↔ ∀ p ∈ zonedProps.agentPoolProfiles,
          ∃ az, p.availabilityZones = some az ∧ 2 ≤ az.length :=
  aks_review_availability_zones diagAlwaysTrue "sub" "rg" zonedCluster
    zonedProps zonedRow rfl (by decide)

/-- C7: if listing the resources fails on any page, `AKSAnalyzer.Review`
returns no result rows together with the propagated paging error. -/
theorem aks_review_listing_error (diag : DiagFn) (subId rg e : String)
    (pages : List (Except String (List ManagedCluster)))
    (herr : listClusters pages = .error e) :
    review diag subId rg pages = .fatal e := by
  unfold review
  rw [herr]

/-- Witness for C7: a pager whose second page fails after the first page
already delivered a cluster. -/
theorem aks_review_listing_error_witness :
    review diagAlwaysTrue "sub" "rg" [.ok [zonedCluster], .error "page 2 failed"]
      = .fatal "page 2 failed" :=
  aks_review_listing_error diagAlwaysTrue "sub" "rg" "page 2 failed"
    [.ok [zonedCluster], .error "page 2 failed"] rfl

/-- A cluster whose diagnostics lookup errors makes its review step
return the error (`Review` line 45-48: `return nil, err`). -/
theorem reviewCluster_diag_error (diag : DiagFn) (subId rg cid e : String)
    (c : ManagedCluster) (hid : c.id = some cid) (hd : diag cid = .error e) :
    reviewCluster diag subId rg c = .fatal e := by
  unfold reviewCluster
  simp only [hid, hd]

/-- C8: whenever the diagnostics-settings lookup errors during
evaluation, the scan is fatal and no result row is produced: `evh-001`'s
Eval terminates the process (`log.Fatalf`, modelled as `none`), and the
AKS per-cluster loop never returns a row list when some fetched cluster's
diagnostics lookup errors. -/
theorem diag_error_is_fatal (diag : DiagFn) :
    (∀ (ns : EHNamespace) (ctx : ScanContext) (nsid e : String),
        ns.id = some nsid → diag nsid = .error e →
        evh001Eval diag ns ctx = none)
    ∧ ∀ (subId rg : String) (cs : List ManagedCluster),
        (∃ c ∈ cs, ∃ cid e, c.id = some cid ∧ diag cid = .error e) →
        ∀ rows, reviewClusters diag subId rg cs ≠ .ok rows := by
  constructor
  · intro ns ctx nsid e hid hd
    unfold evh001Eval
    simp only [hid, hd]
  · intro subId rg cs
    induction cs with
    | nil => rintro ⟨c, hc, _⟩ rows; exact absurd hc (List.not_mem_nil c)
    | cons c rest ih =>
      rintro ⟨c', hc', cid, e, hid, hd⟩ rows h
      unfold reviewClusters at h
      rcases List.mem_cons.mp hc' with hhd | htl
      · subst hhd
        rw [reviewCluster_diag_error diag subId rg cid e c' hid hd] at h
        exact RunResult.noConfusion h
      · revert h
        cases hr : reviewCluster diag subId rg c with
        | panic => exact fun h => RunResult.noConfusion h
        | fatal e' => exact fun h => RunResult.noConfusion h
        | ok row =>
          cases hrest : reviewClusters diag subId rg rest with
          | panic => exact fun h => RunResult.noConfusion h
          | fatal e' => exact fun h => RunResult.noConfusion h
          | ok rows' =>
            exact fun _ => absurd hrest (ih ⟨c', htl, cid, e, hid, hd⟩ rows')

/-- Namespace properties used by witnesses. -/
def nsPremiumProps : EHNamespaceProperties :=
  { zoneRedundant := some true, privateEndpointConnections := [()],
    disableLocalAuth := some true }

/-- An Event Hub namespace used by witnesses. -/
def nsPremium : EHNamespace :=
  { id := some "ns1", name := some "evh-prod",
    sku := some { name := some "Premium" },
    properties := some nsPremiumProps,
    tags := some [("env", "prod")] }

/-- Witness for C8: a failing diagnostics capability on a concrete
namespace and a concrete cluster list. -/
theorem diag_error_is_fatal_witness :
    evh001Eval diagAlwaysFails nsPremium ctx0 = none
    ∧ ∀ rows, reviewClusters diagAlwaysFails "sub" "rg" [zonedCluster] ≠ .ok rows :=
  ⟨(diag_error_is_fatal diagAlwaysFails).1 nsPremium ctx0 "ns1"
      "diagnostics lookup failed" rfl rfl,
    (diag_error_is_fatal diagAlwaysFails).2 "sub" "rg" [zonedCluster]
      ⟨zonedCluster, List.mem_singleton.mpr rfl,
        "id2", "diagnostics lookup failed", rfl, rfl⟩⟩

/-- A Basic-tier App Service plan. -/
def planBasic : Plan :=
  { id := some "p1", name := some "asp-basic",
    sku := some { name := some "B1", tier := some "Basic" },
    properties := some { zoneRedundant := some false },
    tags := none }

/-- A Free-tier App Service plan. -/
def planFree : Plan :=
  { id := some "p2", name := some "asp-free",
    sku := some { name := some "F1", tier := some "Free" },
    properties := some { zoneRedundant := some false },
    tags := none }

/-- A Standard-SKU Event Hub namespace. -/
def nsStandard : EHNamespace :=
  { id := some "ns2", name := some "evh-std",
    sku := some { name := some "Standard" },
    properties := some nsPremiumProps,
    tags := none }

/-- Counterexample for C2: `plan-003` checks only "Free" and "Shared",
so a "Basic" tier yields value "99.95%" and broken = false, not "None". -/
theorem plan003_basic_counterexample :
    plan003Eval planBasic ctx0 = some ((false, "99.95%"), planBasic, ctx0) := by
  decide

/-- C2 as amended: `plan-003` yields "None" (with broken = true, i.e.
broken exactly when the SLA is "None") for the tiers "Free" and
"Shared" only; any other tier — "Basic" included — yields "99.95%" with
broken = false. `evh-003` never yields "None": broken is always false
and the value is "99.95%" for SKU names containing "Basic" or
"Standard", "99.99%" otherwise. -/
theorem plan003_evh003_sla (p : Plan) (ns : EHNamespace) (ctx : ScanContext)
    (psku : PlanSKU) (tier : String) (esku : EHSKU) (skuName : String)
    (hp : p.sku = some psku) (ht : psku.tier = some tier)
    (he : ns.sku = some esku) (hn : esku.name = some skuName) :
    plan003Eval p ctx =
      some ((if tier = "Free" ∨ tier = "Shared" then (true, "None")
             else (false, "99.95%")), p, ctx)
    ∧ evh003Eval ns ctx =
      some ((false,
             if strContains skuName "Basic" || strContains skuName "Standard"
             then "99.95%" else "99.99%"), ns, ctx) := by
  constructor
  · unfold plan003Eval
    simp only [hp, ht]
    by_cases h1 : tier = "Free"
    · simp [h1]
    · by_cases h2 : tier = "Shared"
      · simp [h1, h2]
      · simp [h1, h2]
  · unfold evh003Eval
    simp only [he, hn]
    cases hB : strContains skuName "Basic" <;>
      cases hS : strContains skuName "Standard" <;> simp [hB, hS]

/-- Witness for C2 (amended): the Free-tier plan and the Standard
namespace. -/
theorem plan003_evh003_sla_witness :
    plan003Eval planFree ctx0 =
      some ((if "Free" = "Free" ∨ "Free" = "Shared" then (true, "None")
             else (false, "99.95%")), planFree, ctx0)
    ∧ evh003Eval nsStandard ctx0 =
      some ((false,
             if strContains "Standard" "Basic" || strContains "Standard" "Standard"
             then "99.95%" else "99.99%"), nsStandard, ctx0) :=
  plan003_evh003_sla planFree nsStandard ctx0 { name := some "F1", tier := some "Free" }
    "Free" { name := some "Standard" } "Standard" rfl rfl rfl rfl

/-- C4: `evh-008`'s Eval is broken exactly when `DisableLocalAuth` is
present and false — the literal pattern `flag != nil && !*flag` — and
not broken when the flag is absent or true. -/
theorem evh008_local_auth (c : EHNamespace) (ctx : ScanContext)
    (props : EHNamespaceProperties) (hp : c.properties = some props) :
    evh008Eval c ctx =
      some (((props.disableLocalAuth == some false), ""), c, ctx) := by
  unfold evh008Eval
  simp only [hp]
  cases hd : props.disableLocalAuth with
  | none => simp [hd]
  | some b => cases b <;> simp [hd]

/-- Witness for C4: a namespace with local authentication disabled
(`DisableLocalAuth = true` ⇒ broken = false). -/
theorem evh008_local_auth_witness :
    evh008Eval nsPremium ctx0 =
      some (((nsPremiumProps.disableLocalAuth == some false), ""), nsPremium, ctx0) :=
  evh008_local_auth nsPremium ctx0 nsPremiumProps rfl

/-- An App Service site whose `HTTPSOnly` flag is absent. -/
def siteNilHttps : Site :=
  { id := some "s1", name := some "app-nohttps",
    properties := some { httpsOnly := none },
    tags := none }

/-- An App Service site with `HTTPSOnly = false`. -/
def siteHttpsFalse : Site :=
  { id := some "s2", name := some "app-http",
    properties := some { httpsOnly := some false },
    tags := none }

/-- An App Service plan whose `ZoneRedundant` flag is absent. -/
def planNilZone : Plan :=
  { id := some "p3", name := some "asp-nozone",
    sku := some { name := some "S1", tier := some "Standard" },
    properties := some { zoneRedundant := none },
    tags := none }

/-- An App Service plan with `ZoneRedundant = true`. -/
def planZoneTrue : Plan :=
  { id := some "p4", name := some "asp-zoned",
    sku := some { name := some "P1v3", tier := some "PremiumV3" },
    properties := some { zoneRedundant := some true },
    tags := none }

/-- Counterexample for C5: `app-007` and `plan-002` dereference the
absent flag — a nil-pointer panic (`none`), not a safe broken = true
return. -/
theorem app007_plan002_nil_counterexample :
    app007Eval siteNilHttps ctx0 = none
    ∧ plan002Eval planNilZone ctx0 = none := ⟨rfl, rfl⟩

/-- C5 as amended: for a present flag, each boolean-flag rule returns
broken = NOT(flag); on an absent flag, `func-007` totally returns
broken = true (absent treated as false), while `app-007` and `plan-002`
dereference the nil pointer and do not return. -/
theorem bool_flag_rules (s : Site) (p : Plan) (ctx : ScanContext)
    (sprops : SiteProperties) (pprops : PlanProperties)
    (hs : s.properties = some sprops) (hp : p.properties = some pprops) :
    func007Eval s ctx = some (((!(sprops.httpsOnly.getD false)), ""), s, ctx)
    ∧ (∀ b, sprops.httpsOnly = some b →
        app007Eval s ctx = some (((!b), ""), s, ctx))
    ∧ (sprops.httpsOnly = none → app007Eval s ctx = none)
    ∧ (∀ b, pprops.zoneRedundant = some b →
        plan002Eval p ctx = some (((!b), ""), p, ctx))
    ∧ (pprops.zoneRedundant = none → plan002Eval p ctx = none) := by
  refine ⟨?_, fun b hb => ?_, fun hnone => ?_, fun b hb => ?_, fun hnone => ?_⟩
  · unfold func007Eval
    simp only [hs]
    cases hh : sprops.httpsOnly <;> simp [hh]
  · unfold app007Eval
    simp only [hs, hb]
  · unfold app007Eval
    simp only [hs, hnone]
  · unfold plan002Eval
    simp only [hp, hb]
  · unfold plan002Eval
    simp only [hp, hnone]

/-- Witness for C5 (amended): `HTTPSOnly = false` site and
`ZoneRedundant = true` plan. -/
theorem bool_flag_rules_witness :
    func007Eval siteHttpsFalse ctx0 =
      some ((true, ""), siteHttpsFalse, ctx0)
    ∧ plan002Eval planZoneTrue ctx0 = some ((false, ""), planZoneTrue, ctx0) :=
  ⟨(bool_flag_rules siteHttpsFalse planZoneTrue ctx0 { httpsOnly := some false }
      { zoneRedundant := some true } rfl rfl).1,
    (bool_flag_rules siteHttpsFalse planZoneTrue ctx0 { httpsOnly := some false }
      { zoneRedundant := some true } rfl rfl).2.2.2.1 true rfl⟩

/-- C6: with the addon-profile map lacking the key, `aks-010` reports
compliant (broken = false) while `aks-011` reports non-compliant
(broken = true) — the asymmetry is exact. -/
theorem aks_addon_absent_asymmetry (c : ManagedCluster) (ctx : ScanContext)
    (props : ManagedClusterProperties) (hp : c.properties = some props)
    (hroute : lookupAddon props.addonProfiles "httpApplicationRouting" = none)
    (homs : lookupAddon props.addonProfiles "omsagent" = none) :
    aks010Eval c ctx = some ((false, ""), c, ctx)
    ∧ aks011Eval c ctx = some ((true, ""), c, ctx) := by
  unfold aks010Eval aks011Eval
  simp [hp, hroute, homs]

/-- Witness for C6: the zoned cluster, whose addon-profile map is empty. -/
theorem aks_addon_absent_asymmetry_witness :
    aks010Eval zonedCluster ctx0 = some ((false, ""), zonedCluster, ctx0)
    ∧ aks011Eval zonedCluster ctx0 = some ((true, ""), zonedCluster, ctx0) :=
  aks_addon_absent_asymmetry zonedCluster ctx0 zonedProps rfl rfl rfl

/-- A Container App environment used by witnesses. -/
def envZoned : ManagedEnvironment :=
  { id := some "env1", name := some "cae-prod",
    properties := some
      { zoneRedundant := some true,
        vnetConfiguration := some { internal := some true } },
    tags := some [("env", "prod")] }

/-- A SignalR resource used by witnesses. -/
def srInfo : SignalRResourceInfo :=
  { id := some "sr1", name := some "sigr-prod" }

/-- C10: the SLA rules `evh-003`, `cae-003` and `sigr-003` never flag a
resource as broken: whenever their Eval returns, broken is false and
only the value string varies. -/
theorem sla_rules_never_flag (ns : EHNamespace) (env : ManagedEnvironment)
    (sr : SignalRResourceInfo) (ctx : ScanContext) :
    (∀ (b : Bool) (v : String) (t' : EHNamespace) (ctx' : ScanContext),
        evh003Eval ns ctx = some ((b, v), t', ctx') → b = false)
    ∧ cae003Eval env ctx = some ((false, "99.95%"), env, ctx)
    ∧ sigr003Eval sr ctx = some ((false, "99.9%"), sr, ctx) := by
  refine ⟨?_, rfl, rfl⟩
  intro b v t' ctx' h
  unfold evh003Eval at h
  repeat' split at h
  all_goals first
    | exact Option.noConfusion h
    | (simp only [Option.some.injEq, Prod.mk.injEq] at h; exact h.1.1.symm)

/-- C9: every registered Event Hub and Container Apps rule's Eval is a
pure, deterministic function of `(resource, ctx)`: evaluating twice on
identical inputs gives identical results, and whenever Eval returns, the
resource and scan context it hands back are exactly the ones passed in
(no mutation). -/
theorem rules_eval_pure (diag : DiagFn) :
    (∀ r ∈ evhRules diag, ∀ (t : EHNamespace) (ctx : ScanContext)
        (out : Bool × String) (t' : EHNamespace) (ctx' : ScanContext),
        r.eval t ctx = some (out, t', ctx') →
        r.eval t ctx = r.eval t ctx ∧ t' = t ∧ ctx' = ctx)
    ∧ (∀ r ∈ caeRules diag, ∀ (t : ManagedEnvironment) (ctx : ScanContext)
        (out : Bool × String) (t' : ManagedEnvironment) (ctx' : ScanContext),
        r.eval t ctx = some (out, t', ctx') →
        r.eval t ctx = r.eval t ctx ∧ t' = t ∧ ctx' = ctx) := by
  constructor
  · intro r hr t ctx out t' ctx' h
    refine ⟨rfl, ?_⟩
    simp only [evhRules, List.mem_cons, List.not_mem_nil, or_false] at hr
    rcases hr with h1 | h1 | h1 | h1 | h1 | h1 | h1 | h1 <;> subst h1 <;>
      simp only [evh001Eval, evh002Eval, evh003Eval, evh004Eval, evh005Eval,
        evh006Eval, evh007Eval, evh008Eval] at h <;>
      repeat' split at h
    all_goals first
      | exact Option.noConfusion h
      | (simp only [Option.some.injEq, Prod.mk.injEq] at h
         exact ⟨h.2.1.symm, h.2.2.symm⟩)
  · intro r hr t ctx out t' ctx' h
    refine ⟨rfl, ?_⟩
    simp only [caeRules, List.mem_cons, List.not_mem_nil, or_false] at hr
    rcases hr with h1 | h1 | h1 | h1 | h1 | h1 <;> subst h1 <;>
      simp only [cae001Eval, cae002Eval, cae003Eval, cae004Eval, cae006Eval,
        cae007Eval] at h <;>
      repeat' split at h
    all_goals first
      | exact Option.noConfusion h
      | (simp only [Option.some.injEq, Prod.mk.injEq] at h
         exact ⟨h.2.1.symm, h.2.2.symm⟩)

/-- Witness for C9: the registered `evh-001` rule evaluated twice on a
concrete namespace and context. -/
theorem rules_eval_pure_witness :
    evh001Eval diagAlwaysTrue nsPremium ctx0
        = evh001Eval diagAlwaysTrue nsPremium ctx0
    ∧ nsPremium = nsPremium ∧ ctx0 = ctx0 :=
  (rules_eval_pure diagAlwaysTrue).1
    { id := "evh-001", category := "Monitoring and Logging",
      subcategory := "Diagnostic Logs",
      description := "Event Hub Namespace should have diagnostic settings enabled",
      severity := "Medium", url := "", eval := evh001Eval diagAlwaysTrue }
    (List.Mem.head _) nsPremium ctx0 (false, "") nsPremium ctx0 rfl

/-- Witness for C10: the Premium namespace (value "99.99%"), the zoned
environment and the SignalR resource. -/
theorem sla_rules_never_flag_witness :
    false = false
    ∧ cae003Eval envZoned ctx0 = some ((false, "99.95%"), envZoned, ctx0)
    ∧ sigr003Eval srInfo ctx0 = some ((false, "99.9%"), srInfo, ctx0) :=
  ⟨(sla_rules_never_flag nsPremium envZoned srInfo ctx0).1 false "99.99%"
      nsPremium ctx0 rfl,
    (sla_rules_never_flag nsPremium envZoned srInfo ctx0).2⟩

end Azqr
